import Mathlib

/-!
Verification of the AI-Based ROI Video Transmission System.

This file shallowly embeds the Python source of the repository:
* `src/python/yolo/processor.py` — `Processor.process_frame`,
  `Processor.draw_prediction`, `Processor.get_color_for_class`,
  `Processor.simulate_encoding`;
* `src/python/stream/camera.py` — `CameraStream.open_camera`,
  `CameraStream.get_frame`, `CameraStream.auto_reconnect`;
* `src/python/cli/mode_handler.py` — the CLI client/server wire framing and
  the server's session registry;
* `src/python/stream/mode_handler.py` — the GUI stream client/server wire
  framing and the payload-accumulation loop.

External collaborators (the OpenCV codec and drawing routines, the socket
layer, the YOLO detector) are modelled as explicit parameters or as eventized
oracles, as noted at each definition.
-/

namespace ROISystem

/-! ## Wire framing (`struct.pack` / `socket.recv`)

The byte stream delivered by a socket is modelled as a `List Nat` of the bytes
the peer will ever deliver before closing; `recv n` returns the next
`min n available` bytes, and returns the empty chunk exactly when the peer has
closed the connection (the stream is exhausted).  Each byte is a value `< 256`
when produced by `struct.pack`. -/

/-- Encoding `struct.pack("!I", n)`: 4-byte big-endian unsigned encoding, as used by
the CLI client (`cli/mode_handler.py` line 566) and decoded by the CLI server
(line 853). -/
def packBE (n : Nat) : List Nat :=
  [n / 2 ^ 24 % 256, n / 2 ^ 16 % 256, n / 2 ^ 8 % 256, n % 256]

/-- Encoding `struct.pack("<L", n)`: 4-byte little-endian unsigned encoding, as used by
the GUI stream client (`stream/mode_handler.py` line 299) and the GUI stream
server reply (line 559). -/
def packLE (n : Nat) : List Nat :=
  [n % 256, n / 2 ^ 8 % 256, n / 2 ^ 16 % 256, n / 2 ^ 24 % 256]

/-- Decoding `struct.unpack("!I", b)` on a 4-byte buffer (CLI server, line 853). -/
def unpackBE (b : List Nat) : Nat :=
  match b with
  | b0 :: b1 :: b2 :: b3 :: _ => b0 * 2 ^ 24 + b1 * 2 ^ 16 + b2 * 2 ^ 8 + b3
  | _ => 0

/-- Decoding `struct.unpack("<L", b)` on a 4-byte buffer (stream handlers, lines
309 and 524). -/
def unpackLE (b : List Nat) : Nat :=
  match b with
  | b0 :: b1 :: b2 :: b3 :: _ => b0 + b1 * 2 ^ 8 + b2 * 2 ^ 16 + b3 * 2 ^ 24
  | _ => 0

/-- The byte sequence the CLI client writes per frame
(`cli/mode_handler.py` lines 562-570): `sendall(struct.pack("!I", size))`
followed by `sendall(data_bytes)`. -/
def cliClientSend (payload : List Nat) : List Nat :=
  packBE payload.length ++ payload

/-- The byte sequence the GUI stream client writes per frame
(`stream/mode_handler.py` lines 296-300):
`sendall(struct.pack("<L", len(data)) + data)`. -/
def streamClientSend (payload : List Nat) : List Nat :=
  packLE payload.length ++ payload

/-- The byte sequence the GUI stream server writes as a reply frame
(`stream/mode_handler.py` lines 556-560):
`sendall(struct.pack("<L", len(reply_data)) + reply_data)`. -/
def streamServerReply (payload : List Nat) : List Nat :=
  packLE payload.length ++ payload

/-- The CLI server's payload-accumulation loop
(`cli/mode_handler.py` lines 856-864):

```
data_bytes = b""; remaining = size
while remaining > 0:
    chunk = client_socket.recv(min(remaining, 4096))
    if not chunk: raise Exception("连接中断")
    data_bytes += chunk; remaining -= len(chunk)
```

`bytes` is the remaining socket stream; the result is `ok (data, rest)` or
`error` when a `recv` returns the empty chunk (peer closed mid-payload).
The recursion is on `remaining`, which strictly decreases because a non-empty
chunk has length at least one. -/
def cliAccum (bytes : List Nat) (remaining : Nat) :
    Except String (List Nat × List Nat) :=
  if h : remaining = 0 then .ok ([], bytes)
  else
    let chunk := bytes.take (min remaining 4096)
    if hc : chunk = [] then .error ("连接中断")
    else
      match cliAccum (bytes.drop chunk.length) (remaining - chunk.length) with
      | .ok (data, rest) => .ok (chunk ++ data, rest)
      | .error e => .error e
  termination_by remaining
  decreasing_by
    have hpos : 0 < (bytes.take (min remaining 4096)).length :=
      List.length_pos.mpr hc
    simp only [List.length_take] at hpos ⊢
    omega

/-- Result of one server read unit. -/
inductive ReadResult where
  | frame (payload : List Nat) (rest : List Nat)
  | closed
  | protoError (msg : String)
  deriving Repr, DecidableEq

/-- One read unit of the CLI server (`cli/mode_handler.py` lines 848-864):
`recv(4)`; an empty result means the peer closed at a frame boundary
(`break`, graceful close); fewer than 4 bytes make `struct.unpack` raise
(caught as an error); otherwise decode the big-endian length and run the
accumulation loop. -/
def cliServerRead (stream : List Nat) : ReadResult :=
  let sizeBytes := stream.take 4
  if sizeBytes = [] then .closed
  else if sizeBytes.length < 4 then .protoError ("struct.error")
  else
    let size := unpackBE sizeBytes
    match cliAccum (stream.drop 4) size with
    | .ok (data, rest) => .frame data rest
    | .error e => .protoError e

/-- The GUI stream server's payload-accumulation loop
(`stream/mode_handler.py` lines 527-532):

```
data = b""
while len(data) < msg_size:
    remaining = msg_size - len(data)
    data += client_socket.recv(4096 if remaining > 4096 else remaining)
```

There is no check for an empty chunk, so on a closed connection the loop body
makes no progress; the loop is modelled with an explicit iteration budget
`fuel`, returning `none` when the budget is exhausted before `len(data)`
reaches `msg_size`.  A result of `none` for every `fuel` means the loop never
terminates. -/
def streamAccum : (fuel : Nat) → (bytes data : List Nat) → (msgSize : Nat) →
    Option (List Nat × List Nat)
  | 0, bytes, data, msgSize =>
    if msgSize ≤ data.length then some (data, bytes) else none
  | fuel + 1, bytes, data, msgSize =>
    if msgSize ≤ data.length then some (data, bytes)
    else
      let remaining := msgSize - data.length
      let chunk := bytes.take (if 4096 < remaining then 4096 else remaining)
      streamAccum fuel (bytes.drop chunk.length) (data ++ chunk) msgSize

/-- One read unit of the GUI stream server (`stream/mode_handler.py` lines
520-532): `recv(4)`; an empty result means graceful close (`break`);
otherwise decode the little-endian length and run the accumulation loop
(with iteration budget `fuel`; `none` models the loop failing to finish). -/
def streamServerRead (fuel : Nat) (stream : List Nat) :
    Option ReadResult :=
  let sizeBytes := stream.take 4
  if sizeBytes = [] then some .closed
  else if sizeBytes.length < 4 then some (.protoError ("struct.error"))
  else
    let size := unpackLE sizeBytes
    match streamAccum fuel (stream.drop 4) [] size with
    | some (data, rest) => some (.frame data rest)
    | none => none

/-! ## Fidelity mapping (`Processor.simulate_encoding`, lines 197-199)

`roi_quality = max(5, min(100, int(100 - (roi_qp * 2.5))))`.  Python's
`int()` truncates toward zero, and `100 - qp*2.5 = (200 - 5*qp)/2` exactly,
so the value is `(200 - 5*qp).tdiv 2` (truncating division). -/

/-- JPEG quality derived from a QP value, as computed by `simulate_encoding`:
`max(5, min(100, int(100 - qp * 2.5)))`. -/
def jpegQuality (qp : Int) : Int :=
  max 5 (min 100 ((200 - 5 * qp).tdiv 2))

/-! ## Frames and the region encoder (`yolo/processor.py`)

A pixel is a BGR triple of byte values; an image is a total function from
`(column, row)` to pixels (only coordinates with `px < width`, `py < height`
exist in the real buffer; the functions agree with the source on those).

The external pieces are modelled as parameters or fixed models:
* the JPEG encode-then-decode round trip (`cv2.imencode`/`cv2.imdecode`) is an
  arbitrary parameter `codec : Int → Img → Img` mapping a quality setting and
  an image to the lossy decode;
* `cv2.putText` is modelled as painting the text's bounding box (height 12
  rows above the baseline origin, 10 columns per character) with the text
  color; the theorems use only that the box's pixels are overwritten and that
  pixels outside it are untouched, so the exact glyph shape is immaterial;
* `cv2.getTextSize` is modelled as returning that same box size;
* `cv2.rectangle` with positive thickness 2 is modelled as painting the
  pixels at Chebyshev distance at most 1 from the ideal rectangle outline,
  and with thickness -1 as filling the rectangle, both inclusive of the two
  corner points as OpenCV draws them;
* the YOLO detector's output (`result.boxes`) is an input: a list of
  `Detection`s carrying the integerized `xyxy` corners, class id and
  confidence (the detector itself is an external collaborator);
* the model's class-name table `self.classes` is a parameter
  `classes : Nat → String`. -/

/-- A BGR pixel. -/
abbrev Pix := Nat × Nat × Nat

/-- An image as a function from (column, row) to pixel. -/
abbrev Img := Nat → Nat → Pix

/-- A per-pixel boolean mask. -/
abbrev Mask := Nat → Nat → Bool

/-- One detection as delivered by the YOLO model: integerized corner
coordinates `x1, y1, x2, y2` (`int(x1)` etc. in `process_frame`), class id
and confidence. -/
structure Detection where
  x1 : Int
  y1 : Int
  x2 : Int
  y2 : Int
  clsId : Nat
  conf : ℚ
  deriving Repr, DecidableEq

/-- One entry of the `rois` list built by `process_frame` (lines 116-121):
`{'class': classes[cls_id], 'confidence': conf, 'box': [x, y, w, h]}`. -/
structure RoiInfo where
  cls : String
  confidence : ℚ
  x : Int
  y : Int
  w : Int
  h : Int
  deriving Repr, DecidableEq

/-- Paint `color` at every pixel satisfying `region`, leaving others. -/
def paintIf (region : Nat → Nat → Bool) (color : Pix) (img : Img) : Img :=
  fun px py => if region px py then color else img px py

/-- Membership in the filled rectangle with corners `(x, y)` and `(r, b)`,
both inclusive (OpenCV `cv2.rectangle(..., thickness=-1)`). -/
def inRect (x y r b : Int) (px py : Nat) : Bool :=
  decide (x ≤ (px : Int)) && decide ((px : Int) ≤ r) &&
  decide (y ≤ (py : Int)) && decide ((py : Int) ≤ b)

/-- Membership in the thickness-2 border of the rectangle with corners
`(x, y)` and `(r, b)`: Chebyshev distance at most 1 from the outline
(model of `cv2.rectangle(..., thickness=2)`). -/
def onBorder (x y r b : Int) (px py : Nat) : Bool :=
  inRect (x - 1) (y - 1) (r + 1) (b + 1) px py &&
  !(inRect (x + 2) (y + 2) (r - 2) (b - 2) px py)

/-- Model of `cv2.getTextSize(...)[0][0]`: the text width, 10 columns per
character. -/
def textWidth (s : String) : Nat := 10 * s.length

/-- Model of `cv2.getTextSize(...)[0][1]`: the text height, 12 rows. -/
def textHeight : Nat := 12

/-- Region painted by the model of `cv2.putText(img, s, (ox, oy), ...)`:
the text's bounding box, rows `oy - textHeight .. oy`, columns
`ox .. ox + textWidth s - 1`. -/
def textRegion (s : String) (ox oy : Int) (px py : Nat) : Bool :=
  decide (ox ≤ (px : Int)) && decide ((px : Int) < ox + textWidth s) &&
  decide (oy - textHeight ≤ (py : Int)) && decide ((py : Int) ≤ oy)

/-- Model of `cv2.putText`: paints the text box with the text color. -/
def putText (img : Img) (s : String) (ox oy : Int) (color : Pix) : Img :=
  paintIf (textRegion s ox oy) color img

/-- Embeds `Processor.get_color_for_class` (lines 160-182): fixed 10-color BGR
palette indexed by `class_id % 10`. -/
def get_color_for_class (classId : Nat) : Pix :=
  let colors : List Pix :=
    [(0, 255, 0), (255, 0, 0), (0, 0, 255), (255, 255, 0), (0, 255, 255),
     (255, 0, 255), (127, 255, 0), (255, 127, 0), (127, 0, 255), (255, 255, 255)]
  colors.getD (classId % colors.length) (0, 0, 0)

/-- Embeds `x = max(0, int(x1))` in `process_frame` (line 104). -/
def clampX (d : Detection) : Int := max 0 d.x1

/-- Embeds `y = max(0, int(y1))` in `process_frame` (line 105). -/
def clampY (d : Detection) : Int := max 0 d.y1

/-- Embeds `right = min(width, x + w)` with `w = int(x2 - x1)` (line 106). -/
def clampRight (width : Int) (d : Detection) : Int :=
  min width (max 0 d.x1 + (d.x2 - d.x1))

/-- Embeds `bottom = min(height, y + h)` with `h = int(y2 - y1)` (line 107). -/
def clampBottom (height : Int) (d : Detection) : Int :=
  min height (max 0 d.y1 + (d.y2 - d.y1))

/-- Whether pixel `(px, py)` lies in the ROI rectangle that `process_frame`
paints into the mask for detection `d`
(`cv2.rectangle(mask, (x, y), (right, bottom), 255, -1)`, line 110). -/
def inDetectionBox (width height : Int) (d : Detection) (px py : Nat) : Bool :=
  inRect (clampX d) (clampY d) (clampRight width d) (clampBottom height d) px py

/-- Embeds `Processor.draw_prediction` (lines 132-158) applied to image `img`:
draws the thickness-2 bounding box, the filled label background and the label
text, in source order.  `classes` is the model's class-name table; the label
is `classes[class_id]` (the dictionary membership test of line 144 always
succeeds for ids the model produced).  The painted string is
`f"{label} {conf:.2f}"`, modelled with a fixed 5-character confidence tail
(only its width matters). -/
def draw_prediction (classes : Nat → String) (img : Img) (classId : Nat)
    (x y r b : Int) : Img :=
  let label := classes classId
  let fullText := label ++ " 0.00"
  let color := get_color_for_class classId
  let img1 := paintIf (onBorder x y r b) color img
  let img2 := paintIf
    (inRect x (y - textHeight - 5) (x + textWidth fullText) y) color img1
  putText img2 fullText x (y - 5) (0, 0, 0)

/-- The state threaded through the detection loop of `process_frame`
(lines 88-121): the ROI mask being painted, the frame being drawn on
(the caller's `frame` object), and the accumulated `rois` list. -/
structure LoopState where
  mask : Mask
  img : Img
  rois : List RoiInfo

/-- One iteration of the detection loop of `process_frame` (lines 92-121)
for detection `d`: paint the clamped rectangle into the mask, draw the
prediction on the caller's frame, and append the ROI info entry
(clamped `x`, `y` but unclamped `w = int(x2-x1)`, `h = int(y2-y1)`). -/
def detStep (classes : Nat → String) (width height : Int) (st : LoopState)
    (d : Detection) : LoopState :=
  { mask := fun px py =>
      if inDetectionBox width height d px py then true else st.mask px py
    img := draw_prediction classes st.img d.clsId
      (clampX d) (clampY d) (clampRight width d) (clampBottom height d)
    rois := st.rois ++ [⟨classes d.clsId, d.conf, clampX d, clampY d,
      d.x2 - d.x1, d.y2 - d.y1⟩] }

/-- Embeds `Processor.simulate_encoding` (lines 184-224): re-encode the original
frame at the two quality settings, composite per-pixel with
`np.where(mask_3ch > 0, roi_decoded, non_roi_decoded)`, then draw the two
QP status texts (`cv2.putText` at `(10, 20)` and `(10, 40)`).
`codec q img` stands for `cv2.imdecode(cv2.imencode('.jpg', img,
[IMWRITE_JPEG_QUALITY, q]))`; the final `astype(np.uint8)` is the identity
on the already-byte-valued data. -/
def simulate_encoding (codec : Int → Img → Img) (original_frame : Img)
    (mask : Mask) (roiQp nonRoiQp : Int) : Img :=
  let roi_decoded := codec (jpegQuality roiQp) original_frame
  let non_roi_decoded := codec (jpegQuality nonRoiQp) original_frame
  let result : Img := fun px py =>
    if mask px py then roi_decoded px py else non_roi_decoded px py
  let result1 := putText result ("ROI QP: " ++ toString roiQp) 10 20 (0, 255, 0)
  putText result1 ("非ROI QP: " ++ toString nonRoiQp) 10 40 (0, 0, 255)

/-- Embeds `Processor.process_frame` (lines 54-130) on a present frame, with the
detector's output `dets` as input.  Returns the composited frame, the
`rois` list, and the final contents of the caller's `frame` buffer (which
the source mutates in place via `draw_prediction`).  The composite is built
from `original_frame = frame.copy()` taken before the loop (line 73). -/
def process_frame (codec : Int → Img → Img) (classes : Nat → String)
    (frame : Img) (width height : Int) (dets : List Detection)
    (roiQp nonRoiQp : Int) : Img × List RoiInfo × Img :=
  let original_frame := frame
  let st := dets.foldl (detStep classes width height)
    ⟨fun _ _ => false, frame, []⟩
  let roi_encoded := simulate_encoding codec original_frame st.mask roiQp nonRoiQp
  (roi_encoded, st.rois, st.img)

/-- The union region painted by the two QP status texts that
`simulate_encoding` writes onto the composite. -/
def statusTextRegion (roiQp nonRoiQp : Int) (px py : Nat) : Bool :=
  textRegion ("ROI QP: " ++ toString roiQp) 10 20 px py ||
  textRegion ("非ROI QP: " ++ toString nonRoiQp) 10 40 px py

/-- Whether some detection's mask rectangle covers `(px, py)`. -/
def coveredBy (width height : Int) (dets : List Detection) (px py : Nat) : Bool :=
  dets.any (fun d => inDetectionBox width height d px py)

/-! ## The capture source (`stream/camera.py`)

`CameraStream` is a stateful object; its state is captured by `CamState`.
The OpenCV capture handle `self.cap` is `none` when the Python attribute is
`None`, and `some b` when a `VideoCapture` object exists whose `isOpened()`
returns `b`.  The outcomes of the external calls (`VideoCapture` opening,
trial reads, per-call `cap.read()`) are supplied as oracle values, one per
call, and the reconnection thread's liveness (`reconnect_thread.is_alive()`)
is the boolean `reconAlive`.  Each method is a pure function from the state
and the oracle values to the result and the next state; a spawned
reconnection thread is reported as a boolean rather than executed inline. -/

/-- The video source descriptor held in `self.source`: an `int` device
index, a `str` (URL or file path), or any other Python value (which
`open_camera` rejects with `ValueError`, line 67). -/
inductive Source where
  | device (idx : Int)
  | url (s : String)
  | other
  deriving Repr, DecidableEq

/-- The mutable state of a `CameraStream`. -/
structure CamState where
  running : Bool
  /-- Field `self.cap`: `none` for `None`, `some b` for a capture whose
  `isOpened()` returns `b`. -/
  cap : Option Bool
  /-- Field `self.last_frame`. -/
  last_frame : Option Img
  /-- whether `self.reconnect_thread` exists and `is_alive()`. -/
  reconAlive : Bool

/-- Oracle for one `open_camera` call: whether the freshly constructed
capture reports `isOpened()`, and whether the trial `cap.read()` of line 79
succeeds. -/
structure OpenEnv where
  opens : Bool
  trialReadOk : Bool
  deriving Repr, DecidableEq

/-- Embeds `CameraStream.open_camera` (lines 35-91).  Any failure inside the `try`
(`ValueError` for an unsupported source type, `IOError` when `isOpened()` is
false or the trial read fails) is caught by the `except` block, which
releases the capture, sets it to `None` and returns `False`; `running` is
set to `True` only on the success path (line 83) and is left unchanged on
failure. -/
def open_camera (s : CamState) (src : Source) (env : OpenEnv) :
    Bool × CamState :=
  -- the old capture, if any, is released first (lines 39-40); a released
  -- handle reports isOpened() = false, and every failure path below
  -- ends with cap = none anyway.
  match src with
  | .other => (false, { s with cap := none })
  | _ =>
    if env.opens then
      if env.trialReadOk then
        (true, { s with cap := some true, running := true })
      else (false, { s with cap := none })
    else (false, { s with cap := none })

/-- Oracle for one `cap.read()` inside `get_frame`: success with a decoded
frame, failure (`ret` false), or an exception escaping the read. -/
inductive ReadOutcome where
  | ok (f : Img)
  | fail
  | exc

/-- Result of one `get_frame` call: the returned value, the next state, and
whether a new reconnection thread was spawned. -/
structure GetFrameResult where
  ret : Option Img
  state : CamState
  spawned : Bool

/-- Embeds `CameraStream.get_frame` (lines 113-167).  The guard of line 120 is
`not running or cap is None or not cap.isOpened()`; in that case (and on a
failed read, line 158) a reconnection thread is spawned only when none is
alive, and `last_frame` is returned.  On a successful read the FPS text is
drawn onto the frame (line 145, at `(10, frame.shape[0]-10)`, i.e. near the
bottom; the FPS value only affects the text), the frame is cached and
returned.  An exception during the read returns `last_frame` without
spawning anything (lines 165-167). -/
def get_frame (s : CamState) (height : Int) (fps : ℚ) (r : ReadOutcome) :
    GetFrameResult :=
  if ¬(s.running = true ∧ s.cap = some true) then
    if ¬s.reconAlive then
      ⟨s.last_frame, { s with reconAlive := true }, true⟩
    else ⟨s.last_frame, s, false⟩
  else
    match r with
    | .ok f =>
      let f' := putText f ("FPS: " ++ toString fps) 10 (height - 10) (0, 255, 0)
      ⟨some f', { s with last_frame := some f' }, false⟩
    | .fail =>
      if ¬s.reconAlive then
        ⟨s.last_frame, { s with reconAlive := true }, true⟩
      else ⟨s.last_frame, s, false⟩
    | .exc => ⟨s.last_frame, s, false⟩

/-- Whether a `get_frame` call observes a read failure: the line-120 guard
fires, the read returns `ret = False`, or the read raises. -/
def readFailure (s : CamState) (r : ReadOutcome) : Prop :=
  ¬(s.running = true ∧ s.cap = some true) ∨ r = .fail ∨ r = .exc

/-- Embeds `CameraStream.auto_reconnect` (lines 169-193) run to completion inside
the reconnection thread: up to `max_attempts` calls of `open_camera`,
stopping early at the first success; the thread then dies
(`reconAlive := false`).  `envs` supplies one oracle per attempt and has
length `max_attempts` for a full run. -/
def auto_reconnect (s : CamState) (src : Source) : List OpenEnv → Bool × CamState
  | [] => (false, { s with reconAlive := false })
  | env :: rest =>
    match open_camera s src env with
    | (true, s') => (true, { s' with reconAlive := false })
    | (false, s') => auto_reconnect s' src rest

/-- A sequence of consecutive `get_frame` calls, one oracle value per call:
returns the list of returned frames and the final state. -/
def get_frame_trace (height : Int) (fps : ℚ) :
    CamState → List ReadOutcome → List (Option Img) × CamState
  | s, [] => ([], s)
  | s, r :: rs =>
    let res := get_frame s height fps r
    let rest := get_frame_trace height fps res.state rs
    (res.ret :: rest.1, rest.2)

/-! ## The session registry (`cli/mode_handler.py`, `CLIServerHandler`)

The registry `self.clients` is a list of `(client_socket, client_address)`
pairs guarded by `self.clients_lock`; sockets are identified by `Nat`.
The two mutations are modelled as atomic (each happens under the lock in the
source): the append performed by `server_loop` on accept (lines 797-798) and
the removal performed by `handle_client`'s `finally` block right after the
socket is closed (lines 929-938). -/

/-- The session registry: `(socket id, peer address)` pairs. -/
abbrev Registry := List (Nat × String)

/-- Embeds the `server_loop` accept path (line 798): `clients.append((sock, addr))`
under the lock. -/
def acceptClient (reg : Registry) (sock : Nat) (addr : String) : Registry :=
  reg ++ [(sock, addr)]

/-- Embeds the `handle_client` cleanup (line 938):
`clients = [(c, a) for c, a in clients if c != client_socket]` under the
lock, after closing the socket. -/
def removeClient (reg : Registry) (sock : Nat) : Registry :=
  reg.filter (fun p => p.1 ≠ sock)

/-! ### Helper lemmas about the wire-framing functions -/

/-- A big-endian packed length decodes to itself below `2^32`. -/
theorem unpackBE_packBE (n : Nat) (h : n < 2 ^ 32) : unpackBE (packBE n) = n := by
  simp only [packBE, unpackBE]
  omega

/-- A little-endian packed length decodes to itself below `2^32`. -/
theorem unpackLE_packLE (n : Nat) (h : n < 2 ^ 32) : unpackLE (packLE n) = n := by
  simp only [packLE, unpackLE]
  omega

/-- When the socket holds at least `remaining` bytes, the CLI accumulation
loop collects exactly the first `remaining` bytes and leaves the rest. -/
theorem cliAccum_ok :
    ∀ remaining bytes, remaining ≤ List.length bytes →
      cliAccum bytes remaining = .ok (bytes.take remaining, bytes.drop remaining) := by
  intro remaining
  induction remaining using Nat.strong_induction_on with
  | _ remaining ih =>
    intro bytes h
    rw [cliAccum]
    by_cases h0 : remaining = 0
    · subst h0; simp
    · rw [dif_neg h0]
      have hmin : min remaining 4096 ≤ bytes.length := le_trans (min_le_left _ _) h
      have hpos : 0 < min remaining 4096 := by omega
      have hlen : (bytes.take (min remaining 4096)).length = min remaining 4096 := by
        simp [List.length_take]; omega
      have hne : bytes.take (min remaining 4096) ≠ [] := by
        intro hnil
        rw [hnil] at hlen
        simp at hlen
        omega
      rw [dif_neg hne, hlen]
      have hrec := ih (remaining - min remaining 4096) (by omega)
        (bytes.drop (min remaining 4096))
        (by simp [List.length_drop]; omega)
      have hadd : min remaining 4096 + (remaining - min remaining 4096) = remaining := by
        omega
      rw [hrec, List.drop_drop, hadd]
      have htake : bytes.take (min remaining 4096) ++
          (bytes.drop (min remaining 4096)).take (remaining - min remaining 4096) =
          bytes.take remaining := by
        rw [← List.take_add, hadd]
      rw [← htake]

/-- When the socket holds fewer than `remaining` bytes and then closes, the
CLI accumulation loop hits an empty `recv` and reports the mid-payload
disconnect error. -/
theorem cliAccum_err :
    ∀ remaining bytes, List.length bytes < remaining →
      cliAccum bytes remaining = .error ("连接中断") := by
  intro remaining
  induction remaining using Nat.strong_induction_on with
  | _ remaining ih =>
    intro bytes h
    rw [cliAccum]
    have h0 : remaining ≠ 0 := by omega
    rw [dif_neg h0]
    by_cases hne : bytes.take (min remaining 4096) = []
    · rw [dif_pos hne]
    · rw [dif_neg hne]
      have hlen : (bytes.take (min remaining 4096)).length =
          min (min remaining 4096) bytes.length := by
        simp [List.length_take]
      have hpos : 0 < (bytes.take (min remaining 4096)).length :=
        List.length_pos.mpr hne
      have hrec := ih (remaining - (bytes.take (min remaining 4096)).length)
        (by omega) (bytes.drop (bytes.take (min remaining 4096)).length)
        (by simp [List.length_drop]; omega)
      rw [hrec]

/-- With enough iteration budget and enough bytes on the socket, the GUI
stream accumulation loop collects exactly the missing bytes. -/
theorem streamAccum_ok :
    ∀ fuel bytes data msgSize,
      msgSize - List.length data ≤ fuel →
      msgSize - List.length data ≤ List.length bytes →
      streamAccum fuel bytes data msgSize =
        some (data ++ bytes.take (msgSize - data.length),
              bytes.drop (msgSize - data.length)) := by
  intro fuel
  induction fuel with
  | zero =>
    intro bytes data msgSize hfuel hbytes
    have hdone : msgSize ≤ data.length := by omega
    have h0 : msgSize - data.length = 0 := by omega
    rw [streamAccum, if_pos hdone, h0]
    simp
  | succ fuel' ih =>
    intro bytes data msgSize hfuel hbytes
    rw [streamAccum]
    by_cases hdone : msgSize ≤ data.length
    · have h0 : msgSize - data.length = 0 := by omega
      rw [if_pos hdone, h0]
      simp
    · rw [if_neg hdone]
      simp only
      by_cases hbig : 4096 < msgSize - data.length
      · rw [if_pos hbig]
        have hlen : (bytes.take 4096).length = 4096 := by
          simp [List.length_take]; omega
        rw [hlen]
        have hrec := ih (bytes.drop 4096) (data ++ bytes.take 4096) msgSize
          (by simp [List.length_drop, List.length_append, hlen]; omega)
          (by simp [List.length_drop, List.length_append, hlen]; omega)
        rw [hrec]
        have e1 : msgSize - (data ++ bytes.take 4096).length =
            msgSize - data.length - 4096 := by
          simp [List.length_append, hlen]; omega
        rw [e1, List.drop_drop]
        have e2 : 4096 + (msgSize - data.length - 4096) = msgSize - data.length := by
          omega
        rw [e2]
        have e3 : data ++ bytes.take 4096 ++
            (bytes.drop 4096).take (msgSize - data.length - 4096) =
            data ++ bytes.take (msgSize - data.length) := by
          rw [List.append_assoc, ← List.take_add, e2]
        rw [e3]
      · rw [if_neg hbig]
        have hlen : (bytes.take (msgSize - data.length)).length =
            msgSize - data.length := by
          simp [List.length_take]; omega
        rw [hlen]
        have hrec := ih (bytes.drop (msgSize - data.length))
          (data ++ bytes.take (msgSize - data.length)) msgSize
          (by simp [List.length_append, hlen]; omega)
          (by simp [List.length_append, hlen]; omega)
        rw [hrec]
        have e1 : msgSize - (data ++ bytes.take (msgSize - data.length)).length = 0 := by
          simp [List.length_append, hlen]; omega
        rw [e1]
        simp

/-- On a closed connection (no bytes left) with the payload still incomplete,
the GUI stream accumulation loop makes no progress: it fails for every
iteration budget, i.e. the source loop never terminates. -/
theorem streamAccum_closed_none :
    ∀ fuel data msgSize, List.length data < msgSize →
      streamAccum fuel [] data msgSize = none := by
  intro fuel
  induction fuel with
  | zero =>
    intro data msgSize h
    rw [streamAccum, if_neg (by omega)]
  | succ fuel ih =>
    intro data msgSize h
    rw [streamAccum, if_neg (by omega)]
    simp only [List.take_nil, List.length_nil, List.drop_nil, List.append_nil]
    exact ih data msgSize h

/-! ### Helper lemmas about the detection loop -/

/-- The mask built by the loop is the union of the detections' rectangles. -/
theorem foldl_detStep_mask (classes : Nat → String) (width height : Int) :
    ∀ (dets : List Detection) (st : LoopState) (px py : Nat),
      (dets.foldl (detStep classes width height) st).mask px py =
        (st.mask px py || coveredBy width height dets px py) := by
  intro dets
  induction dets with
  | nil => intro st px py; simp [coveredBy]
  | cons d rest ih =>
    intro st px py
    simp only [List.foldl_cons, ih, coveredBy, List.any_cons]
    simp only [detStep]
    by_cases hd : inDetectionBox width height d px py
    · simp [hd]
    · simp [hd]

/-- The `rois` list built by the loop, in detector order. -/
theorem foldl_detStep_rois (classes : Nat → String) (width height : Int) :
    ∀ (dets : List Detection) (st : LoopState),
      (dets.foldl (detStep classes width height) st).rois =
        st.rois ++ dets.map (fun d => (⟨classes d.clsId, d.conf, clampX d,
          clampY d, d.x2 - d.x1, d.y2 - d.y1⟩ : RoiInfo)) := by
  intro dets
  induction dets with
  | nil => intro st; simp
  | cons d rest ih =>
    intro st
    simp only [List.foldl_cons, ih, detStep, List.map_cons]
    simp

/-! ### Helper lemmas about the capture source -/

/-- An `open_camera` call whose oracle makes any of the three checked steps
fail returns `False` with the capture handle set to `None`, leaving the other
fields unchanged. -/
theorem open_camera_fail (s : CamState) (src : Source) (env : OpenEnv)
    (h : src = .other ∨ env.opens = false ∨ env.trialReadOk = false) :
    open_camera s src env = (false, { s with cap := none }) := by
  obtain ⟨o, t⟩ := env
  rcases src with i | u | _
  · rcases h with h | h | h
    · exact absurd h (by simp)
    · simp only at h; subst h; rfl
    · simp only at h; subst h
      cases o <;> rfl
  · rcases h with h | h | h
    · exact absurd h (by simp)
    · simp only at h; subst h; rfl
    · simp only at h; subst h
      cases o <;> rfl
  · rfl

/-- With the capture handle `None`, a `get_frame` call takes the line-120
guard branch: it returns the cached frame and changes nothing but the
reconnection-thread flag. -/
theorem get_frame_cap_none (s : CamState) (height : Int) (fps : ℚ)
    (r : ReadOutcome) (h : s.cap = none) :
    (get_frame s height fps r).ret = s.last_frame ∧
    (get_frame s height fps r).state.last_frame = s.last_frame ∧
    (get_frame s height fps r).state.cap = none ∧
    (get_frame s height fps r).state.running = s.running := by
  have hg : ¬(s.running = true ∧ s.cap = some true) := by simp [h]
  by_cases ha : s.reconAlive <;> simp [get_frame, hg, ha, h]

/-! ## Claim theorems -/

/-- C7 (claim as stated, refuted): the derived fidelity at
`quality_param = 15` is the integer 62, which differs from
`clamp(100 - 15 * 2.5, 5, 100) = 62.5`: the source applies Python `int()`
truncation before clamping. -/
theorem C7_counterexample :
    jpegQuality 15 = 62 ∧
    ((jpegQuality 15 : ℚ) ≠ max 5 (min 100 ((100 : ℚ) - 15 * 2.5))) := by
  have h1 : jpegQuality 15 = 62 := by decide
  refine ⟨h1, ?_⟩
  rw [h1]
  have h2 : ((100 : ℚ) - 15 * 2.5) = 125 / 2 := by norm_num
  rw [h2, min_eq_right (by norm_num), max_eq_right (by norm_num)]
  norm_num

/-- C7 (amended): for every `quality_param` in `[5, 40]` the derived fidelity
equals `clamp(⌊100 - quality_param * 2.5⌋, 5, 100)` (the truncated value),
and the fidelity is monotonically non-increasing in the quality parameter
over that range. -/
theorem C7_fidelity :
    (∀ q : Int, 5 ≤ q → q ≤ 40 →
      jpegQuality q = max 5 (min 100 ⌊(100 : ℚ) - (q : ℚ) * 2.5⌋)) ∧
    (∀ q q' : Int, 5 ≤ q → q' ≤ 40 → q ≤ q' →
      jpegQuality q' ≤ jpegQuality q) := by
  constructor
  · intro q h5 h40
    have hnn : (0 : Int) ≤ 200 - 5 * q := by omega
    have htd : (200 - 5 * q).tdiv 2 = (200 - 5 * q) / 2 :=
      Int.tdiv_eq_ediv hnn (by norm_num)
    have hfl : ⌊(100 : ℚ) - (q : ℚ) * 2.5⌋ = (200 - 5 * q) / 2 := by
      have hcast : (100 : ℚ) - (q : ℚ) * 2.5 =
          ((200 - 5 * q : Int) : ℚ) / ((2 : ℕ) : ℚ) := by
        push_cast
        ring
      rw [hcast, Rat.floor_intCast_div_natCast]
      norm_num
    rw [jpegQuality, htd, hfl]
  · intro q q' h5 h40 hle
    unfold jpegQuality
    have h1 : (200 - 5 * q') ≤ (200 - 5 * q) := by omega
    have hnn' : (0 : Int) ≤ 200 - 5 * q' := by omega
    have hnn : (0 : Int) ≤ 200 - 5 * q := by omega
    rw [Int.tdiv_eq_ediv hnn (by norm_num), Int.tdiv_eq_ediv hnn' (by norm_num)]
    exact max_le_max (le_refl 5)
      (min_le_min (le_refl 100) (Int.ediv_le_ediv (by norm_num) h1))

/-- C7 witness: the fidelity formula and monotonicity instantiated at the
default parameters 15 and 35. -/
theorem C7_witness :
    jpegQuality 15 = max 5 (min 100 ⌊(100 : ℚ) - (15 : ℚ) * 2.5⌋) ∧
    jpegQuality 35 ≤ jpegQuality 15 :=
  ⟨C7_fidelity.1 15 (by norm_num) (by norm_num),
   C7_fidelity.2 15 35 (by norm_num) (by norm_num) (by norm_num)⟩

/-- C2 (claim as stated, refuted): the GUI stream client's frame for a
one-byte payload starts with the little-endian prefix `[1, 0, 0, 0]`, not
the big-endian prefix `[0, 0, 0, 1]` the claim requires of every role. -/
theorem C2_counterexample :
    streamClientSend [7] = [1, 0, 0, 0, 7] ∧
    packBE 1 ++ [7] = [0, 0, 0, 1, 7] ∧
    streamClientSend [7] ≠ packBE 1 ++ [7] := by
  decide

/-- C2 (amended): every frame is a 4-byte unsigned length followed by exactly
that many payload bytes, but the byte order differs per transport: the CLI
client send uses a big-endian prefix which the CLI server read decodes back
to exactly the payload, while the GUI stream client send and the GUI stream
server reply use a little-endian prefix, decoded likewise by the stream-side
read. -/
theorem C2_framing (payload rest : List Nat) (h : payload.length < 2 ^ 32) :
    cliClientSend payload = packBE payload.length ++ payload ∧
    cliServerRead (cliClientSend payload ++ rest) = .frame payload rest ∧
    streamClientSend payload = packLE payload.length ++ payload ∧
    streamServerReply payload = packLE payload.length ++ payload ∧
    streamServerRead payload.length (streamClientSend payload ++ rest) =
      some (.frame payload rest) := by
  have h4 : (packBE payload.length).length = 4 := rfl
  have h4' : (packLE payload.length).length = 4 := rfl
  refine ⟨rfl, ?_, rfl, rfl, ?_⟩
  · have e0 : cliClientSend payload ++ rest =
        packBE payload.length ++ (payload ++ rest) := by
      simp [cliClientSend]
    rw [e0]
    simp only [cliServerRead, List.take_left' h4, List.drop_left' h4]
    rw [if_neg (by simp [packBE]), if_neg (by simp [h4])]
    rw [unpackBE_packBE _ h,
      cliAccum_ok payload.length (payload ++ rest) (by simp),
      List.take_left, List.drop_left]
  · have e0 : streamClientSend payload ++ rest =
        packLE payload.length ++ (payload ++ rest) := by
      simp [streamClientSend]
    rw [e0]
    simp only [streamServerRead, List.take_left' h4', List.drop_left' h4']
    rw [if_neg (by simp [packLE]), if_neg (by simp [h4'])]
    rw [unpackLE_packLE _ h,
      streamAccum_ok payload.length (payload ++ rest) [] payload.length
        (by simp) (by simp)]
    simp [List.take_left, List.drop_left]

/-- C2 witness: round trip of a concrete two-byte payload with trailing
stream bytes, in both transports. -/
theorem C2_witness :
    cliServerRead (cliClientSend [7, 8] ++ [3]) = .frame [7, 8] [3] ∧
    streamServerRead 2 (streamClientSend [7, 8] ++ [3]) =
      some (.frame [7, 8] [3]) :=
  ⟨(C2_framing [7, 8] [3] (by decide)).2.1,
   (C2_framing [7, 8] [3] (by decide)).2.2.2.2⟩

set_option maxRecDepth 4000 in
/-- C3 (claim as stated, refuted): the GUI stream server's read of a frame
announcing 5 payload bytes over a connection that delivers only 2 and then
closes produces no result at all even after 300 loop iterations — the
zero-byte mid-payload read is not reported as an error and the accumulation
loop does not terminate. -/
theorem C3_counterexample :
    streamServerRead 300 (packLE 5 ++ [1, 2]) = none := by
  decide

/-- C3 (amended): a zero-byte read of the 4-byte length at a frame boundary
is a graceful close in both servers (no error).  In the CLI server a
zero-byte read mid-payload terminates the accumulation loop with the
mid-payload disconnect error, distinct from the graceful close.  In the GUI
stream server, by contrast, the accumulation loop performs no zero-byte
check: on a connection closed mid-payload it reports nothing and never
terminates (it returns no result for any iteration budget). -/
theorem C3_close_semantics :
    cliServerRead [] = .closed ∧
    (∀ (size : Nat) (payload : List Nat), payload.length < size →
      size < 2 ^ 32 →
      cliServerRead (packBE size ++ payload) = .protoError ("连接中断")) ∧
    (∀ fuel : Nat, streamServerRead fuel [] = some .closed) ∧
    (∀ (fuel msgSize : Nat) (data : List Nat), data.length < msgSize →
      streamAccum fuel [] data msgSize = none) := by
  refine ⟨rfl, ?_, fun _ => rfl, ?_⟩
  · intro size payload hlt hsz
    have h4 : (packBE size).length = 4 := rfl
    simp only [cliServerRead, List.take_left' h4, List.drop_left' h4]
    rw [if_neg (by simp [packBE]), if_neg (by simp [h4])]
    rw [unpackBE_packBE _ hsz, cliAccum_err size payload hlt]
  · intro fuel msgSize data hlt
    exact streamAccum_closed_none fuel data msgSize hlt

/-- C3 witness: a CLI server read that announces 5 bytes but receives only 2
before the close reports the mid-payload error, and the stream accumulation
loop on the same closed-connection state yields nothing within 7 iterations. -/
theorem C3_witness :
    cliServerRead (packBE 5 ++ [1, 2]) = .protoError ("连接中断") ∧
    streamAccum 7 [] [1, 2] 5 = none :=
  ⟨C3_close_semantics.2.1 5 [1, 2] (by decide) (by decide),
   C3_close_semantics.2.2.2 7 5 [1, 2] (by decide)⟩

/-- C1 (claim as stated, refuted): with no detections and the identity codec
on a black frame, the composited output of `process_frame` is green at pixel
`(12, 18)` — that pixel lies under the "ROI QP" status text that
`simulate_encoding` draws after compositing — while the background decode is
black there, so an uncovered pixel does not take the background decode's
value. -/
theorem C1_counterexample :
    coveredBy 100 100 [] 12 18 = false ∧
    (process_frame (fun _ i => i) (fun _ => "obj") (fun _ _ => (0, 0, 0))
      100 100 [] 15 35).1 12 18 = (0, 255, 0) ∧
    (fun _ _ => ((0, 0, 0) : Pix)) 12 18 = ((0, 0, 0) : Pix) ∧
    ((0, 255, 0) : Pix) ≠ ((0, 0, 0) : Pix) := by
  refine ⟨rfl, ?_, rfl, by decide⟩
  decide

/-- C1 (amended): at every pixel outside the two QP status-text overlays
that `simulate_encoding` draws onto the composite (at `(10, 20)` and
`(10, 40)`), the output of `process_frame` takes the ROI-quality
encode-then-decode of the original frame wherever some detection's clamped
mask rectangle covers the pixel, and the background-quality
encode-then-decode everywhere else; pixels under the status text take the
overlay text instead. -/
theorem C1_composite (codec : Int → Img → Img) (classes : Nat → String)
    (frame : Img) (width height : Int) (dets : List Detection)
    (roiQp nonRoiQp : Int) (px py : Nat)
    (hov : statusTextRegion roiQp nonRoiQp px py = false) :
    (coveredBy width height dets px py = true →
      (process_frame codec classes frame width height dets roiQp nonRoiQp).1 px py =
        codec (jpegQuality roiQp) frame px py) ∧
    (coveredBy width height dets px py = false →
      (process_frame codec classes frame width height dets roiQp nonRoiQp).1 px py =
        codec (jpegQuality nonRoiQp) frame px py) := by
  have hov' := hov
  simp only [statusTextRegion, Bool.or_eq_false_iff] at hov'
  have hmask := foldl_detStep_mask classes width height dets
    ⟨fun _ _ => false, frame, []⟩ px py
  constructor <;> intro hcov <;>
    simp [process_frame, simulate_encoding, putText, paintIf,
      hov'.1, hov'.2, hmask, hcov]

/-- C1 witness: at the uncovered pixel `(50, 50)` (outside both status-text
boxes), the composite of a black frame under the identity codec equals the
background decode. -/
theorem C1_witness :
    statusTextRegion 15 35 50 50 = false ∧
    (process_frame (fun _ i => i) (fun _ => "obj") (fun _ _ => (0, 0, 0))
      100 100 [] 15 35).1 50 50 = (0, 0, 0) :=
  ⟨by decide,
   (C1_composite (fun _ i => i) (fun _ => "obj") (fun _ _ => (0, 0, 0))
     100 100 [] 15 35 50 50 (by decide)).2 (by decide)⟩

/-- C8 (claim as stated, refuted): a detection with corners
`(90, 10)-(120, 30)` on a 100×100 frame yields a `rois` entry with box
`(90, 10, 30, 20)`: the stored width is the raw extent `int(x2 - x1)`, so
`x + width = 120` exceeds the frame width 100. -/
theorem C8_counterexample :
    (process_frame (fun _ i => i) (fun _ => "obj") (fun _ _ => (0, 0, 0))
      100 100 [⟨90, 10, 120, 30, 0, 1⟩] 15 35).2.1 =
      [⟨"obj", 1, 90, 10, 30, 20⟩] ∧
    ¬((90 : Int) + 30 ≤ 100) := by
  refine ⟨?_, by decide⟩
  decide

/-- C8 (amended): every `rois` entry returned by `process_frame` has its
origin clamped to the frame, `0 ≤ x` and `0 ≤ y`; the stored width and
height are the raw detector extents (`w = int(x2 - x1)`,
`h = int(y2 - y1)`), so `x + w` may exceed the frame width — only the mask
rectangle, not the reported box, is clamped on the right and bottom. -/
theorem C8_rois_origin (codec : Int → Img → Img) (classes : Nat → String)
    (frame : Img) (width height : Int) (dets : List Detection)
    (roiQp nonRoiQp : Int) :
    ∀ r ∈ (process_frame codec classes frame width height dets roiQp nonRoiQp).2.1,
      0 ≤ r.x ∧ 0 ≤ r.y := by
  intro r hr
  simp only [process_frame] at hr
  rw [foldl_detStep_rois] at hr
  simp only [List.nil_append, List.mem_map] at hr
  obtain ⟨d, _, rfl⟩ := hr
  exact ⟨le_max_left _ _, le_max_left _ _⟩

/-- C8 witness: the clamped-origin property instantiated on the concrete
out-of-bounds detection. -/
theorem C8_witness :
    (⟨"obj", 1, 90, 10, 30, 20⟩ : RoiInfo) ∈
      (process_frame (fun _ i => i) (fun _ => "obj") (fun _ _ => (0, 0, 0))
        100 100 [⟨90, 10, 120, 30, 0, 1⟩] 15 35).2.1 ∧
    0 ≤ (⟨"obj", 1, 90, 10, 30, 20⟩ : RoiInfo).x :=
  ⟨by decide,
   (C8_rois_origin (fun _ i => i) (fun _ => "obj") (fun _ _ => (0, 0, 0))
     100 100 [⟨90, 10, 120, 30, 0, 1⟩] 15 35 ⟨"obj", 1, 90, 10, 30, 20⟩
     (by decide)).1⟩

/-- C9 (claim as stated, refuted): `process_frame` on a black frame with one
detection at `(10, 10)-(30, 30)` leaves the caller's frame buffer green at
pixel `(10, 10)`: `draw_prediction` (called on the input `frame`, line 113)
paints the bounding box and label background in place, so the input frame is
mutated whenever a detection is present. -/
theorem C9_counterexample :
    (process_frame (fun _ i => i) (fun _ => "obj") (fun _ _ => (0, 0, 0))
      100 100 [⟨10, 10, 30, 30, 0, 1⟩] 15 35).2.2 10 10 = (0, 255, 0) ∧
    (fun _ _ => ((0, 0, 0) : Pix)) 10 10 = ((0, 0, 0) : Pix) ∧
    ((0, 255, 0) : Pix) ≠ ((0, 0, 0) : Pix) := by
  refine ⟨?_, rfl, by decide⟩
  decide

/-- C9 (amended): the composited result is a separate frame computed from a
copy of the input taken before any drawing (it equals
`simulate_encoding` applied to the pristine input and the detections' mask
union), and with no detections the caller's frame is left unmutated; but for
each detection `draw_prediction` draws the box and label directly on the
caller's input frame, mutating it in place. -/
theorem C9_frame_ownership (codec : Int → Img → Img) (classes : Nat → String)
    (frame : Img) (width height : Int) (roiQp nonRoiQp : Int) :
    (process_frame codec classes frame width height [] roiQp nonRoiQp).2.2 = frame ∧
    ∀ dets : List Detection,
      (process_frame codec classes frame width height dets roiQp nonRoiQp).1 =
        simulate_encoding codec frame (coveredBy width height dets) roiQp nonRoiQp := by
  constructor
  · rfl
  · intro dets
    have hm : (dets.foldl (detStep classes width height)
        ⟨fun _ _ => false, frame, []⟩).mask = coveredBy width height dets := by
      funext px py
      rw [foldl_detStep_mask]
      simp
    simp only [process_frame]
    rw [hm]

/-- C4 (claim as stated, refuted): after a reconnection sequence of exactly
`max_attempts = 5` failed attempts, the source has not stopped attempting
reconnection — the next `get_frame` call (failing read, no live reconnection
thread) spawns a fresh reconnection thread, while still returning the cached
frame; `running` is also still `true`. -/
theorem C4_counterexample :
    (auto_reconnect
      (get_frame ⟨true, some true, some (fun _ _ => (0, 0, 0)), false⟩
        100 0 .fail).state
      (.device 0) (List.replicate 5 ⟨false, false⟩)).1 = false ∧
    (auto_reconnect
      (get_frame ⟨true, some true, some (fun _ _ => (0, 0, 0)), false⟩
        100 0 .fail).state
      (.device 0) (List.replicate 5 ⟨false, false⟩)).2.running = true ∧
    (get_frame
      (auto_reconnect
        (get_frame ⟨true, some true, some (fun _ _ => (0, 0, 0)), false⟩
          100 0 .fail).state
        (.device 0) (List.replicate 5 ⟨false, false⟩)).2
      100 0 .fail).spawned = true ∧
    (get_frame
      (auto_reconnect
        (get_frame ⟨true, some true, some (fun _ _ => (0, 0, 0)), false⟩
          100 0 .fail).state
        (.device 0) (List.replicate 5 ⟨false, false⟩)).2
      100 0 .fail).ret = some (fun _ _ => (0, 0, 0)) :=
  ⟨rfl, rfl, rfl, rfl⟩

/-- C4 (amended): a reconnection sequence whose `max_attempts` attempts all
fail terminates unsuccessfully, leaving `last_frame` and `running` unchanged
and the reconnection thread dead; with the capture handle `None`, every
subsequent sequence of `get_frame` calls returns the last cached frame
(or `None` if never successful) at every call and preserves it — but the
source does not stop attempting reconnection: a later `get_frame` call with
no live reconnection thread spawns a new attempt (see the counterexample). -/
theorem C4_fail_soft (src : Source) (envs : List OpenEnv) (s : CamState)
    (hfail : ∀ e ∈ envs, src = .other ∨ e.opens = false ∨ e.trialReadOk = false) :
    ((auto_reconnect s src envs).1 = false ∧
     (auto_reconnect s src envs).2.last_frame = s.last_frame ∧
     (auto_reconnect s src envs).2.running = s.running ∧
     (auto_reconnect s src envs).2.reconAlive = false) ∧
    (∀ (s' : CamState), s'.cap = none →
      ∀ (height : Int) (fps : ℚ) (rs : List ReadOutcome),
        (get_frame_trace height fps s' rs).1 =
          List.replicate rs.length s'.last_frame ∧
        (get_frame_trace height fps s' rs).2.last_frame = s'.last_frame ∧
        (get_frame_trace height fps s' rs).2.cap = none) := by
  constructor
  · induction envs generalizing s with
    | nil => exact ⟨rfl, rfl, rfl, rfl⟩
    | cons env rest ih =>
      have hop := open_camera_fail s src env (hfail env (by simp))
      have hrest := ih { s with cap := none }
        (fun e he => hfail e (by simp [he]))
      simp only [auto_reconnect, hop]
      exact hrest
  · intro s' hcap height fps rs
    induction rs generalizing s' with
    | nil => exact ⟨rfl, rfl, hcap⟩
    | cons r rest ih =>
      have h1 := get_frame_cap_none s' height fps r hcap
      have ih' := ih (get_frame s' height fps r).state h1.2.2.1
      simp only [get_frame_trace, List.length_cons, List.replicate_succ]
      exact ⟨by rw [h1.1, ih'.1, h1.2.1], by rw [ih'.2.1, h1.2.1], ih'.2.2⟩

/-- C4 witness: the exhausted-reconnection facts and the stale-frame service
on a concrete state with no cached frame and two subsequent failing calls. -/
theorem C4_witness :
    (auto_reconnect ⟨true, none, none, true⟩ (.device 0)
      (List.replicate 5 ⟨false, false⟩)).1 = false ∧
    (get_frame_trace 100 0 ⟨true, none, none, false⟩ [.fail, .fail]).1 =
      List.replicate 2 none :=
  ⟨(C4_fail_soft (.device 0) (List.replicate 5 ⟨false, false⟩)
      ⟨true, none, none, true⟩ (by decide)).1.1,
   ((C4_fail_soft (.device 0) (List.replicate 5 ⟨false, false⟩)
      ⟨true, none, none, true⟩ (by decide)).2
      ⟨true, none, none, false⟩ rfl 100 0 [.fail, .fail]).1⟩

/-- C5 (confirmed): on every read failure — the line-120 guard firing, a
read returning `ret = False`, or an exception during the read —
`get_frame` returns the cached `last_frame` (or `None` if no read ever
succeeded), leaves the cache unchanged, and spawns a reconnection thread
only when none is alive.  The function is total: every failure path returns
a value rather than raising. -/
theorem C5_get_frame_no_raise (s : CamState) (height : Int) (fps : ℚ)
    (r : ReadOutcome) (h : readFailure s r) :
    (get_frame s height fps r).ret = s.last_frame ∧
    (get_frame s height fps r).state.last_frame = s.last_frame ∧
    ((get_frame s height fps r).spawned = true → s.reconAlive = false) := by
  by_cases hg : s.running = true ∧ s.cap = some true
  · rcases h with hng | hr | hr
    · exact absurd hg hng
    · subst hr
      by_cases ha : s.reconAlive <;> simp [get_frame, hg, ha]
    · subst hr
      simp [get_frame, hg]
  · by_cases ha : s.reconAlive <;> simp [get_frame, hg, ha]

/-- C5 witness: a `get_frame` call on a state with no capture handle and no
cached frame returns `None` without raising. -/
theorem C5_witness :
    readFailure ⟨true, none, none, false⟩ .fail ∧
    (get_frame ⟨true, none, none, false⟩ 100 0 .fail).ret = none ∧
    (get_frame ⟨true, none, none, false⟩ 100 0 .fail).spawned = true :=
  ⟨Or.inr (Or.inl rfl),
   (C5_get_frame_no_raise ⟨true, none, none, false⟩ 100 0 .fail
     (Or.inr (Or.inl rfl))).1,
   rfl⟩

/-- C6 (confirmed): with the accept-time append and the handler-exit removal
modelled as the atomic registry operations they are under
`self.clients_lock`, two concurrently connected clients occupy exactly two
registry entries; immediately after either disconnects (its handler's
`finally` block closes the socket and filters it out) exactly the other
entry remains; and no socket ever remains in the registry after its own
removal step. -/
theorem C6_session_registry (c1 c2 : Nat) (a1 a2 : String) (h : c1 ≠ c2) :
    (acceptClient (acceptClient [] c1 a1) c2 a2).length = 2 ∧
    removeClient (acceptClient (acceptClient [] c1 a1) c2 a2) c1 = [(c2, a2)] ∧
    removeClient (acceptClient (acceptClient [] c1 a1) c2 a2) c2 = [(c1, a1)] ∧
    (∀ (reg : Registry) (c : Nat), ∀ p ∈ removeClient reg c, p.1 ≠ c) := by
  refine ⟨rfl, ?_, ?_, ?_⟩
  · simp [acceptClient, removeClient, List.filter, h, Ne.symm h]
  · simp [acceptClient, removeClient, List.filter, h, Ne.symm h]
  · intro reg c p hp
    simpa using (List.mem_filter.mp hp).2

/-- C6 witness: the registry scenario at concrete sockets 1 and 2. -/
theorem C6_witness :
    removeClient (acceptClient (acceptClient [] 1 "A") 2 "B") 1 = [(2, "B")] :=
  (C6_session_registry 1 2 "A" "B" (by decide)).2.1

/-- C10 (confirmed): `open_camera` is total — the `try`/`except Exception`
wrapper converts every failure (unsupported source type, capture that does
not open, failed trial read) into a `False` return — it returns `True`
exactly when the source opens and the trial read succeeds, on success the
capture is open and `running` is set, and on every failure path the capture
handle is released and set to `None`. -/
theorem C10_open_camera (s : CamState) (src : Source) (env : OpenEnv) :
    ((open_camera s src env).1 = true ↔
      src ≠ .other ∧ env.opens = true ∧ env.trialReadOk = true) ∧
    ((open_camera s src env).1 = false → (open_camera s src env).2.cap = none) ∧
    ((open_camera s src env).1 = true →
      (open_camera s src env).2.cap = some true ∧
      (open_camera s src env).2.running = true) := by
  obtain ⟨o, t⟩ := env
  rcases src with i | u | _ <;> cases o <;> cases t <;>
    simp [open_camera]

/-- C10 witness: a successful open on device 0 and a failed open (capture
does not open) ending with the handle cleared. -/
theorem C10_witness :
    (open_camera ⟨false, none, none, false⟩ (.device 0) ⟨true, true⟩).1 = true ∧
    (open_camera ⟨false, none, none, false⟩ (.device 0) ⟨false, true⟩).2.cap = none :=
  ⟨(C10_open_camera ⟨false, none, none, false⟩ (.device 0) ⟨true, true⟩).1.mpr
    ⟨by decide, rfl, rfl⟩,
   (C10_open_camera ⟨false, none, none, false⟩ (.device 0) ⟨false, true⟩).2.1 rfl⟩

end ROISystem
